import Mathlib

/-!
Verification development for `miio/click_common.py`: the command
registration and dispatch machinery of the python-miio CLI framework.

The Python source is shallowly embedded as follows.  Python dicts over
string keys become association lists carrying Python's semantics
(`dict_set` replaces in place or appends, `dict_update` folds `dict_set`
over the update's entries in order).  The metaclass registry construction
`DeviceGroupMeta.__new__` becomes `DevClass.commands`.  Decorator
composition in `DeviceGroup.Command.wrap` becomes function composition
over an abstract invokable type.  The stateful autodetection guard
`_autodetect_model_if_needed` and the mutation of the shared descriptor
kwargs become explicit state passing over `DeviceState` and `CmdKwargs`.
The output pipeline (`format_output`, `json_output`) becomes functions
returning the list of emitted strings together with the Python return
value of the wrapped callable.
-/

namespace ClickCommon

/-- Association-list model of a Python `dict[str, D]` (insertion ordered). -/
abbrev Registry (D : Type) := List (String × D)

/-- Keys of the dict in insertion order, as in Python `d.keys()`. -/
def dict_keys {D : Type} (d : Registry D) : List String :=
  d.map Prod.fst

/-- Python `d[k]`: the value stored at key `k`, `none` when the key is absent. -/
def dict_lookup {D : Type} : Registry D → String → Option D
  | [], _ => none
  | p :: d, k => if p.1 = k then some p.2 else dict_lookup d k

/-- Python `d[k] = v`: replace the entry in place when the key exists, else append. -/
def dict_set {D : Type} : Registry D → String → D → Registry D
  | [], k, v => [(k, v)]
  | p :: d, k, v => if p.1 = k then (k, v) :: d else p :: dict_set d k v

/-- Python `d.update(u)`: set every pair of `u` into `d`, in order. -/
def dict_update {D : Type} (d u : Registry D) : Registry D :=
  u.foldl (fun acc p => dict_set acc p.1 p.2) d

/-- One entry of a class namespace as inspected by `_get_commands_for_namespace`:
whether the value is callable, and its `_device_group_command` attribute
(`none` when the attribute is absent). -/
structure NsItem (D : Type) where
  callableFlag : Bool
  device_group_command : Option D

/-- `_get_commands_for_namespace` (click_common.py lines 121-131): collect the
tagged callables of a class namespace into a command dict keyed by the
descriptor's `command_name` (given here by `cname`), skipping values that are
not callable or carry no `_device_group_command` attribute. -/
def get_commands_for_namespace {D : Type} (cname : D → String) (acc : Registry D) :
    List (NsItem D) → Registry D
  | [] => acc
  | item :: ns =>
    get_commands_for_namespace cname
      (if item.callableFlag then
        match item.device_group_command with
        | some c => dict_set acc (cname c) c
        | none => acc
      else acc) ns

/-- A device class: its direct base classes (each already carrying its own
command registry, as the metaclass sees them) and its own namespace. -/
inductive DevClass (D : Type) : Type where
  | mk (bases : List (DevClass D)) (ns : List (NsItem D))

mutual

/-- `DeviceGroupMeta.__new__` (lines 118-140): start from an empty dict, update
with each base class's `_device_group_commands` in order, then update with the
commands of the current namespace, so the current class overrides same-named
inherited entries. -/
def DevClass.commands {D : Type} (cname : D → String) : DevClass D → Registry D
  | .mk bases ns =>
    dict_update (commandsOfBases cname [] bases) (get_commands_for_namespace cname [] ns)

/-- The loop `for base in bases: commands.update(base._device_group_commands)`. -/
def commandsOfBases {D : Type} (cname : D → String) (acc : Registry D) :
    List (DevClass D) → Registry D
  | [] => acc
  | b :: rest => commandsOfBases cname (dict_update acc (DevClass.commands cname b)) rest

end

mutual

/-- A command name is declared on a class (appears in its own namespace's
command dict) or on one of its ancestors. -/
def DevClass.declares {D : Type} (cname : D → String) (n : String) : DevClass D → Bool
  | .mk bases ns =>
    decide (n ∈ dict_keys (get_commands_for_namespace cname [] ns)) ||
      declaresOfBases cname n bases

/-- Existence of a declaration among a list of base classes. -/
def declaresOfBases {D : Type} (cname : D → String) (n : String) : List (DevClass D) → Bool
  | [] => false
  | b :: rest => DevClass.declares cname n b || declaresOfBases cname n rest

end

/-- `DeviceGroup.list_commands` (lines 282-283): `sorted(self.commands.keys())`. -/
def list_commands {D : Type} (commands : Registry D) : List String :=
  List.insertionSort (fun a b => a ≤ b) (dict_keys commands)

/-- `GlobalContextObject` (lines 107-110), with the output strategy abstracted
as a transform over the invokable type `I`. -/
structure GlobalContextObject (I : Type) where
  debug : Nat
  output : Option (I → I)

/-- `DeviceGroup.Command` as it exists after `__init__`: note that `decorators`
is stored REVERSED relative to declaration order (lines 160-166). -/
structure Command (I : Type) where
  name : Option String
  funcName : String
  decorators : List (I → I)
  default_output : Option (I → I)

/-- `Command.__init__` (lines 160-166): `self.decorators = list(decorators);
self.decorators.reverse()`. -/
def Command.init {I : Type} (name : Option String) (funcName : String)
    (decorators : List (I → I)) (default_output : Option (I → I)) : Command I :=
  ⟨name, funcName, decorators.reverse, default_output⟩

/-- `Command.command_name` (lines 196-198): `self.name or self.func.__name__.lower()`
(a `None` or falsy empty `name` falls back to the lower-cased function name). -/
def Command.command_name {I : Type} (c : Command I) : String :=
  match c.name with
  | some n => if n = "" then c.funcName.toLower else n
  | none => c.funcName.toLower

/-- The `gco is not None and gco.output is not None` access of `Command.wrap`. -/
def gco_output {I : Type} : Option (GlobalContextObject I) → Option (I → I)
  | none => none
  | some g => g.output

/-- The output-strategy selection of `Command.wrap` (lines 200-207): the
GlobalContext override when present, else the descriptor's (truthy)
`default_output`, else `format_output(f"Running command {command_name}")`,
the generic strategy builder being abstracted as `format_output_fn`. -/
def selectOutput {I : Type} (gco : Option (GlobalContextObject I)) (c : Command I)
    (format_output_fn : String → I → I) : I → I :=
  match gco_output gco with
  | some o => o
  | none =>
    match c.default_output with
    | some d => d
    | none => format_output_fn ("Running command " ++ c.command_name)

/-- `Command.wrap` (lines 200-215): wrap `func` with the selected output
strategy, then apply the stored (reversed) decorators left to right; the final
`click.command` registration around the result is transparent at call time. -/
def Command.wrap {I : Type} (c : Command I) (gco : Option (GlobalContextObject I))
    (format_output_fn : String → I → I) (func : I) : I :=
  c.decorators.foldl (fun f dec => dec f) (selectOutput gco c format_output_fn func)

/-- The invokable produced by command resolution: `wrap` applied around the
autodetect-guarded method (`Command.__call__`, lines 168-194, wrapped the
method in the guard at class-definition time, and the group's
`command_callback` reaches the method through that guard). -/
def composed_invokable {I : Type} (c : Command I) (gco : Option (GlobalContextObject I))
    (format_output_fn : String → I → I) (guard : I → I) (method : I) : I :=
  c.wrap gco format_output_fn (guard method)

/-- A decorator for the string-trace model of invokables: tags the trace, so
that the outermost wrapper appears leftmost in the composed string. -/
def tagWrap (tag : String) : String → String :=
  fun s => tag ++ "(" ++ s ++ ")"

/-- The device state read by the autodetect guard: the cached `_model` and
`_info` attributes of the device instance. -/
structure DeviceState where
  _model : Option String
  _info : Option String
deriving DecidableEq

/-- The mutable keyword-options dict of a descriptor, reduced to the single
entry that the dispatch machinery itself reads and mutates:
`skip_autodetect` (`none` models an absent key). -/
structure CmdKwargs where
  skip_autodetect : Option Bool
deriving DecidableEq

/-- Body of `_wrap` inside `_autodetect_model_if_needed` (lines 173-190): pop
`skip_autodetect` from the shared descriptor kwargs (default `False`), then
call `_fetch_info` when the pop yielded `False` and neither cache is set.
Returns the new kwargs, the new device state, and the number of
`_fetch_info` calls performed (0 or 1). -/
def autodetect_guard_step (kw : CmdKwargs) (dev : DeviceState)
    (fetch_info : DeviceState → DeviceState) : CmdKwargs × DeviceState × Nat :=
  let skip := kw.skip_autodetect.getD false
  let kw := CmdKwargs.mk none
  if !skip && dev._model.isNone && dev._info.isNone then
    (kw, fetch_info dev, 1)
  else
    (kw, dev, 0)

/-- One invocation of the guarded method: the guard runs first, then the
method body (which may itself update the device state). -/
def command_call (kw : CmdKwargs) (dev : DeviceState)
    (fetch_info method : DeviceState → DeviceState) : CmdKwargs × DeviceState × Nat :=
  let r := autodetect_guard_step kw dev fetch_info
  (r.1, method r.2.1, r.2.2)

/-- Line 210 of `Command.wrap`: `self.kwargs.pop("skip_autodetect", None)`,
performed on the SHARED kwargs dict at command-resolution time, before the
click command is constructed. -/
def wrap_pop_skip_autodetect (kw : CmdKwargs) : CmdKwargs :=
  CmdKwargs.mk none

/-- Modelled from the spec: the device's info-fetch capability `_fetch_info`
is not part of `click_common.py`; per the spec it "populates both caches from
the device". -/
def fetch_info_spec (m i : String) (dev : DeviceState) : DeviceState :=
  DeviceState.mk (some m) (some i)

/-- Sequential invocations within one CLI invocation: kwargs and device state
thread through, the `_fetch_info` count accumulates. -/
def run_calls (fetch_info method : DeviceState → DeviceState) :
    Nat → CmdKwargs × DeviceState × Nat → CmdKwargs × DeviceState × Nat
  | 0, st => st
  | n + 1, st =>
    let r := command_call st.1 st.2.1 fetch_info method
    run_calls fetch_info method n (r.1, r.2.1, st.2.2 + r.2.2)

/-- A command result as seen by `format_output`:
`getattr(result, "__cli_output__", None)`. -/
structure PyResult where
  cli_output : Option String
deriving DecidableEq

/-- A `msg_fmt` or `result_msg_fmt` argument of `format_output`: either a
template string (whose Python `.format(**kwargs)` rendering is abstracted as
`render`) or a callable producing the message from the kwargs. -/
inductive MsgSpec (A : Type) where
  | str (s : String) (render : A → String)
  | callableSpec (f : A → String)

/-- Python truthiness of the spec (`if msg_fmt:`): a string is truthy when
nonempty, a callable always. -/
def MsgSpec.truthy {A : Type} : MsgSpec A → Bool
  | .str s _ => s != ""
  | .callableSpec _ => true

/-- Python `callable(result_msg_fmt)`. -/
def MsgSpec.isCallable {A : Type} : MsgSpec A → Bool
  | .str _ _ => false
  | .callableSpec _ => true

/-- Rendering the spec from the kwargs: `.format(**kwargs)` for a string,
the call itself for a callable. -/
def MsgSpec.render {A : Type} : MsgSpec A → A → String
  | .str _ r, a => r a
  | .callableSpec f, a => f a

/-- Python `str.strip()`: remove leading and trailing whitespace. -/
def pyStrip (s : String) : String :=
  String.mk (((s.data.dropWhile Char.isWhitespace).reverse.dropWhile Char.isWhitespace).reverse)

/-- Pre-message emission of `format_output.wrap` (lines 299-305): when
`msg_fmt` is truthy, render it; `echo(msg.strip())` when the rendering is
nonempty. -/
def pre_emission {K : Type} (msg_fmt : MsgSpec K) (kwargs : K) : List String :=
  if msg_fmt.truthy then
    let msg := msg_fmt.render kwargs
    if msg != "" then [pyStrip msg] else []
  else []

/-- Post-message emission of `format_output.wrap` (lines 306-318): when
`result_msg_fmt` is NOT callable and the result carries `__cli_output__`,
echo that string verbatim; otherwise render a truthy `result_msg_fmt` from
the kwargs extended with the result, and echo the stripped rendering when
nonempty. -/
def post_emission {K : Type} (result_msg_fmt : MsgSpec (K × PyResult)) (kwargs : K)
    (result : PyResult) : List String :=
  if !result_msg_fmt.isCallable && result.cli_output.isSome then
    [result.cli_output.getD ""]
  else if result_msg_fmt.truthy then
    let rm := result_msg_fmt.render (kwargs, result)
    if rm != "" then [pyStrip rm] else []
  else []

/-- `format_output` (lines 292-322) as a decorator applied to `func`: calling
the wrapped function emits the pre-message, calls `func`, emits the
post-message, and returns `None` (the pair's second component is the Python
return value of the composed callable). -/
def format_output {K : Type} (msg_fmt : MsgSpec K) (result_msg_fmt : MsgSpec (K × PyResult))
    (func : K → PyResult) (kwargs : K) : List String × Option PyResult :=
  (pre_emission msg_fmt kwargs ++ post_emission result_msg_fmt kwargs (func kwargs), none)

/-- Scalar JSON values. -/
inductive JVal where
  | jnum (n : Int)
  | jstr (s : String)
  | jbool (b : Bool)
  | jnull
deriving DecidableEq

/-- The JSON documents the pipeline serializes: a scalar or a flat object,
the shape of structured device-error payloads such as `\x7b"code": 7\x7d`. -/
inductive Json where
  | atom (a : JVal)
  | obj (fields : List (String × JVal))
deriving DecidableEq

/-- JSON string escaping for the characters every encoder must escape. -/
def jsonEscapeChar (c : Char) : String :=
  if c = '"' then "\\\"" else if c = '\\' then "\\\\" else String.singleton c

/-- A JSON string literal. -/
def jsonQuote (s : String) : String :=
  "\"" ++ String.join (s.data.map jsonEscapeChar) ++ "\""

/-- Serialization of scalar values, as `json.dumps` renders them. -/
def JVal.dumps : JVal → String
  | .jnum n => toString n
  | .jstr s => jsonQuote s
  | .jbool b => if b then "true" else "false"
  | .jnull => "null"

/-- Python `json.dumps(x, indent=indent)` on the modelled documents: default
separators `", "` and `": "` in compact mode, or one key per line with
`indent` leading spaces and the closing brace on its own line when an indent
is given. -/
def Json.dumps (indent : Option Nat) : Json → String
  | .atom a => a.dumps
  | .obj [] => "\x7b\x7d"
  | .obj fields =>
    match indent with
    | none =>
      "\x7b" ++ String.intercalate ", "
        (fields.map (fun p => jsonQuote p.1 ++ ": " ++ p.2.dumps)) ++ "\x7d"
    | some n =>
      let pad := String.mk (List.replicate n ' ')
      "\x7b\n" ++ String.intercalate ",\n"
        (fields.map (fun p => pad ++ jsonQuote p.1 ++ ": " ++ p.2.dumps)) ++ "\n\x7d"

/-- `DeviceError` as `json_output` sees it: `payload` is `ex.args[0]`, the
structured machine-readable payload; `message` is the free-text rendering of
the error, which the pipeline must never emit. -/
structure DeviceErrorV where
  payload : Json
  message : String
deriving DecidableEq

/-- A command result as seen by `json_output`: the optional `__json__()`
view, the optional `.data` attribute, and the object itself as a
serializable document. -/
structure JsonResultV where
  json_view : Option Json
  data_attr : Option Json
  self_val : Json
deriving DecidableEq

/-- `json_output` (lines 325-348) as a decorator applied to `func`: catch
`DeviceError` and emit `json.dumps(ex.args[0], indent=indent)`, otherwise
serialize the `__json__()` view when present, else the `.data` attribute when
present, else the result itself.  The wrapped callable always returns `None`
(the pair's second component). -/
def json_output {K : Type} (pretty : Bool) (func : K → Except DeviceErrorV JsonResultV)
    (kwargs : K) : List String × Option JsonResultV :=
  let indent : Option Nat := if pretty then some 2 else none
  match func kwargs with
  | .error ex => ([Json.dumps indent ex.payload], none)
  | .ok result =>
    let r : Json :=
      match result.json_view with
      | some j => j
      | none =>
        match result.data_attr with
        | some dv => dv
        | none => result.self_val
    ([Json.dumps indent r], none)

/-- `validate_token` (lines 36-42): `click.BadParameter` is modelled as the
`Except.error` case carrying the message built by
`"Token length != 32 chars: %s" % token_len`. -/
def validate_token (value : Option String) : Except String (Option String) :=
  match value with
  | none => Except.ok none
  | some v =>
    let token_len := v.length
    if token_len ≠ 32 then
      Except.error ("Token length != 32 chars: " ++ toString token_len)
    else Except.ok (some v)

/-! ## Lemmas about the Python dict model -/

theorem dict_keys_nil {D : Type} : dict_keys ([] : Registry D) = [] := rfl

theorem dict_keys_cons {D : Type} (p : String × D) (d : Registry D) :
    dict_keys (p :: d) = p.1 :: dict_keys d := rfl

theorem dict_lookup_dict_set_self {D : Type} (d : Registry D) (k : String) (v : D) :
    dict_lookup (dict_set d k v) k = some v := by
  induction d with
  | nil => simp [dict_set, dict_lookup]
  | cons p d ih =>
    by_cases h : p.1 = k
    · simp [dict_set, dict_lookup, h]
    · simp [dict_set, dict_lookup, h, ih]

theorem dict_lookup_dict_set_ne {D : Type} (d : Registry D) (k q : String) (v : D)
    (h : q ≠ k) : dict_lookup (dict_set d k v) q = dict_lookup d q := by
  induction d with
  | nil =>
    simp only [dict_set, dict_lookup]
    rw [if_neg (fun hkq => h hkq.symm)]
  | cons p d ih =>
    by_cases hp : p.1 = k
    · simp only [dict_set, if_pos hp, dict_lookup]
      rw [if_neg (fun hkq => h hkq.symm), if_neg (fun hpq => h (hp ▸ hpq).symm)]
    · simp only [dict_set, if_neg hp, dict_lookup, ih]

theorem dict_keys_dict_set {D : Type} (d : Registry D) (k : String) (v : D) :
    dict_keys (dict_set d k v)
      = if k ∈ dict_keys d then dict_keys d else dict_keys d ++ [k] := by
  induction d with
  | nil => simp [dict_set, dict_keys]
  | cons p d ih =>
    by_cases h : p.1 = k
    · simp [dict_set, h, dict_keys_cons, List.mem_cons]
    · have hne : ¬ k = p.1 := fun hk => h hk.symm
      by_cases hmem : k ∈ dict_keys d
      · simp [dict_set, h, dict_keys_cons, ih, hmem, hne]
      · simp [dict_set, h, dict_keys_cons, ih, hmem, hne]

theorem mem_dict_keys_dict_set {D : Type} (d : Registry D) (k q : String) (v : D) :
    q ∈ dict_keys (dict_set d k v) ↔ q ∈ dict_keys d ∨ q = k := by
  rw [dict_keys_dict_set]
  by_cases hmem : k ∈ dict_keys d
  · simp only [if_pos hmem]
    constructor
    · exact Or.inl
    · rintro (h | rfl)
      · exact h
      · exact hmem
  · simp [if_neg hmem]

theorem nodup_dict_keys_dict_set {D : Type} (d : Registry D) (k : String) (v : D)
    (h : (dict_keys d).Nodup) : (dict_keys (dict_set d k v)).Nodup := by
  rw [dict_keys_dict_set]
  by_cases hmem : k ∈ dict_keys d
  · simpa [if_pos hmem]
  · simp only [if_neg hmem]
    exact List.Nodup.append h (List.nodup_singleton k)
      (by simpa [List.disjoint_singleton] using hmem)

theorem dict_lookup_eq_none_iff {D : Type} (d : Registry D) (k : String) :
    dict_lookup d k = none ↔ k ∉ dict_keys d := by
  induction d with
  | nil => simp [dict_lookup, dict_keys]
  | cons p d ih =>
    by_cases h : p.1 = k
    · simp [dict_lookup, h, dict_keys_cons]
    · simp only [dict_lookup, if_neg h, dict_keys_cons, List.mem_cons, ih]
      constructor
      · intro hn
        rintro (rfl | hmem)
        · exact h rfl
        · exact hn hmem
      · intro hn hmem
        exact hn (Or.inr hmem)

theorem dict_update_nil {D : Type} (d : Registry D) : dict_update d [] = d := rfl

theorem dict_update_cons {D : Type} (d : Registry D) (p : String × D) (u : Registry D) :
    dict_update d (p :: u) = dict_update (dict_set d p.1 p.2) u := rfl

theorem dict_lookup_dict_update_of_none {D : Type} (u : Registry D) (k : String) :
    ∀ d : Registry D, dict_lookup u k = none →
      dict_lookup (dict_update d u) k = dict_lookup d k := by
  induction u with
  | nil => intro d h; rfl
  | cons p u ih =>
    intro d h
    rw [dict_lookup] at h
    by_cases hp : p.1 = k
    · rw [if_pos hp] at h
      exact absurd h (by simp)
    · rw [if_neg hp] at h
      rw [dict_update_cons, ih _ h, dict_lookup_dict_set_ne _ _ _ _ (fun hk => hp hk.symm)]

theorem dict_lookup_dict_update_of_some {D : Type} (u : Registry D) (k : String) (v : D) :
    ∀ d : Registry D, (dict_keys u).Nodup → dict_lookup u k = some v →
      dict_lookup (dict_update d u) k = some v := by
  induction u with
  | nil => intro d _ h; simp [dict_lookup] at h
  | cons p u ih =>
    intro d hu h
    rw [dict_keys_cons, List.nodup_cons] at hu
    rw [dict_lookup] at h
    by_cases hp : p.1 = k
    · rw [if_pos hp] at h
      obtain rfl : p.2 = v := Option.some.inj h
      have hnone : dict_lookup u k = none :=
        (dict_lookup_eq_none_iff u k).mpr (hp ▸ hu.1)
      rw [dict_update_cons, dict_lookup_dict_update_of_none _ _ _ hnone, hp,
        dict_lookup_dict_set_self]
    · rw [if_neg hp] at h
      rw [dict_update_cons]
      exact ih _ hu.2 h

theorem mem_dict_keys_dict_update {D : Type} (u : Registry D) (q : String) :
    ∀ d : Registry D, q ∈ dict_keys (dict_update d u) ↔ q ∈ dict_keys d ∨ q ∈ dict_keys u := by
  induction u with
  | nil => intro d; simp [dict_update_nil, dict_keys]
  | cons p u ih =>
    intro d
    rw [dict_update_cons, ih, mem_dict_keys_dict_set, dict_keys_cons, List.mem_cons]
    tauto

theorem nodup_dict_keys_dict_update {D : Type} (u : Registry D) :
    ∀ d : Registry D, (dict_keys d).Nodup → (dict_keys (dict_update d u)).Nodup := by
  induction u with
  | nil => intro d h; exact h
  | cons p u ih =>
    intro d h
    rw [dict_update_cons]
    exact ih _ (nodup_dict_keys_dict_set _ _ _ h)

/-! ## Lemmas about registry construction -/

theorem nodup_dict_keys_get_commands_for_namespace {D : Type} (cname : D → String)
    (ns : List (NsItem D)) :
    ∀ acc : Registry D, (dict_keys acc).Nodup →
      (dict_keys (get_commands_for_namespace cname acc ns)).Nodup := by
  induction ns with
  | nil => intro acc h; exact h
  | cons item ns ih =>
    intro acc h
    rw [get_commands_for_namespace]
    apply ih
    by_cases hc : item.callableFlag
    · rw [if_pos hc]
      cases hdg : item.device_group_command with
      | none => exact h
      | some c => exact nodup_dict_keys_dict_set _ _ _ h
    · rw [if_neg hc]; exact h

theorem nodup_dict_keys_commandsOfBases {D : Type} (cname : D → String)
    (bases : List (DevClass D)) :
    ∀ acc : Registry D, (dict_keys acc).Nodup →
      (dict_keys (commandsOfBases cname acc bases)).Nodup := by
  induction bases with
  | nil => intro acc h; exact h
  | cons b rest ih =>
    intro acc h
    rw [commandsOfBases]
    exact ih _ (nodup_dict_keys_dict_update _ _ h)

theorem nodup_dict_keys_commands {D : Type} (cname : D → String) (c : DevClass D) :
    (dict_keys (DevClass.commands cname c)).Nodup := by
  obtain ⟨bases, ns⟩ := c
  rw [DevClass.commands]
  exact nodup_dict_keys_dict_update _ _
    (nodup_dict_keys_commandsOfBases cname bases [] List.nodup_nil)

theorem mem_dict_keys_commandsOfBases_mono {D : Type} (cname : D → String) (n : String)
    (bases : List (DevClass D)) :
    ∀ acc : Registry D, n ∈ dict_keys acc →
      n ∈ dict_keys (commandsOfBases cname acc bases) := by
  induction bases with
  | nil => intro acc h; exact h
  | cons b rest ih =>
    intro acc h
    rw [commandsOfBases]
    exact ih _ ((mem_dict_keys_dict_update _ _ _).mpr (Or.inl h))

theorem mem_dict_keys_commandsOfBases_of_base {D : Type} (cname : D → String) (n : String)
    (bases : List (DevClass D)) (b : DevClass D) (hb : b ∈ bases)
    (hn : n ∈ dict_keys (DevClass.commands cname b)) :
    ∀ acc : Registry D, n ∈ dict_keys (commandsOfBases cname acc bases) := by
  induction bases with
  | nil => cases hb
  | cons hd rest ih =>
    intro acc
    rw [commandsOfBases]
    rcases List.mem_cons.mp hb with rfl | hmem
    · exact mem_dict_keys_commandsOfBases_mono cname n rest _
        ((mem_dict_keys_dict_update _ _ _).mpr (Or.inr hn))
    · exact ih hmem _

theorem exists_base_of_declaresOfBases {D : Type} (cname : D → String) (n : String)
    (bases : List (DevClass D)) (h : declaresOfBases cname n bases = true) :
    ∃ b ∈ bases, DevClass.declares cname n b = true := by
  induction bases with
  | nil => rw [declaresOfBases] at h; cases h
  | cons b rest ih =>
    rw [declaresOfBases, Bool.or_eq_true] at h
    rcases h with h | h
    · exact ⟨b, List.mem_cons_self b rest, h⟩
    · obtain ⟨b', hb', hd⟩ := ih h
      exact ⟨b', List.mem_cons_of_mem b hb', hd⟩

theorem declares_mem_dict_keys_fuel {D : Type} (cname : D → String) (n : String) :
    ∀ (fuel : Nat) (c : DevClass D), sizeOf c ≤ fuel →
      DevClass.declares cname n c = true →
      n ∈ dict_keys (DevClass.commands cname c) := by
  intro fuel
  induction fuel with
  | zero =>
    intro c hc
    obtain ⟨bases, ns⟩ := c
    exfalso
    have : sizeOf (DevClass.mk bases ns) = 1 + sizeOf bases + sizeOf ns := by
      simp
    omega
  | succ fuel ih =>
    intro c hsize hdec
    obtain ⟨bases, ns⟩ := c
    rw [DevClass.declares, Bool.or_eq_true] at hdec
    rw [DevClass.commands]
    rcases hdec with h | h
    · exact (mem_dict_keys_dict_update _ _ _).mpr (Or.inr (of_decide_eq_true h))
    · obtain ⟨b, hb, hdb⟩ := exists_base_of_declaresOfBases cname n bases h
      have hsz : sizeOf b ≤ fuel := by
        have h1 := List.sizeOf_lt_of_mem hb
        have h2 : sizeOf (DevClass.mk bases ns) = 1 + sizeOf bases + sizeOf ns := by
          simp
        omega
      have hmem := ih b hsz hdb
      exact (mem_dict_keys_dict_update _ _ _).mpr
        (Or.inl (mem_dict_keys_commandsOfBases_of_base cname n bases b hb hmem []))

theorem declares_mem_dict_keys {D : Type} (cname : D → String) (n : String)
    (c : DevClass D) (h : DevClass.declares cname n c = true) :
    n ∈ dict_keys (DevClass.commands cname c) :=
  declares_mem_dict_keys_fuel cname n (sizeOf c) c le_rfl h

/-! ## Lemmas about list_commands -/

theorem mem_list_commands_iff {D : Type} (d : Registry D) (n : String) :
    n ∈ list_commands d ↔ n ∈ dict_keys d := by
  rw [list_commands]
  exact (List.perm_insertionSort _ _).mem_iff

theorem sorted_lt_list_commands {D : Type} (d : Registry D)
    (h : (dict_keys d).Nodup) : (list_commands d).Sorted (· < ·) := by
  have hs : (list_commands d).Sorted (· ≤ ·) := List.sorted_insertionSort _ _
  have hn : (list_commands d).Nodup :=
    ((List.perm_insertionSort _ _).nodup_iff).mpr h
  exact List.Sorted.lt_of_le hs hn

/-! ## Claim theorems -/

/-- C1 counterexample: for a descriptor declaring decorators `[d1, d2]` in that
order, the composed invokable does NOT have `d2` as its outermost wrapper.  In
the string-trace model (each wrapper tags the trace, outermost tag leftmost)
the composed invokable is `d1(d2(output(guard(method))))`, which differs from
the claimed `d2(d1(output(guard(method))))`: the FIRST-declared decorator is
outermost. -/
theorem C1_counterexample :
    composed_invokable (Command.init (some "cmd") "cmd" [tagWrap "d1", tagWrap "d2"] none)
        none (fun msg => tagWrap ("output[" ++ msg ++ "]")) (tagWrap "guard") "method"
      = "d1(d2(output[Running command cmd](guard(method))))" ∧
    "d1(d2(output[Running command cmd](guard(method))))"
      ≠ "d2(d1(output[Running command cmd](guard(method))))" := by
  constructor
  · rfl
  · decide

/-- C1 (amended): for every descriptor with decorators `[d1, d2]` declared in
that order, the composed invokable has `d1` (the FIRST-declared decorator) as
its outermost wrapper: a call executes `d1`, then `d2`, then the selected
output strategy, then the autodetect guard, then the method body, in that
nesting.  (`Command.__init__` reverses the declared list and `Command.wrap`
then applies it left to right, so declaration order equals execution order.) -/
theorem C1_first_declared_outermost {I : Type} (nm : Option String) (fn : String)
    (d1 d2 : I → I) (dflt : Option (I → I)) (gco : Option (GlobalContextObject I))
    (fo : String → I → I) (guard : I → I) (method : I) :
    composed_invokable (Command.init nm fn [d1, d2] dflt) gco fo guard method
      = d1 (d2 (selectOutput gco (Command.init nm fn [d1, d2] dflt) fo (guard method))) :=
  rfl

/-- C2 (code bug witness): a descriptor whose options request skipping the
autodetect guard (`skip_autodetect = True`), resolved through the group
(`Command.wrap` pops `skip_autodetect` from the shared kwargs dict at
resolution time) and then called once on a device with neither a cached model
nor cached info, triggers `_fetch_info` exactly once — although the claim
(and the option's evident purpose) requires the info-fetch never to run.  The
resolution-time pop destroys the flag before `_wrap`'s own pop can read it. -/
theorem C2_skip_autodetect_lost :
    (run_calls (fetch_info_spec "some.model" "info") id 1
        (wrap_pop_skip_autodetect (CmdKwargs.mk (some true)),
          DeviceState.mk none none, 0)).2.2 = 1 := rfl

/-- C3: the autodetect guard triggers the device's info-fetch at most once per
invocation: for two sequential command calls (arbitrary descriptor kwargs and
method bodies) on the same device instance, if the first call left the cached
model or the cached info populated, the second call performs zero
`_fetch_info` calls. -/
theorem C3_no_second_fetch (kw1 kw2 : CmdKwargs) (dev : DeviceState)
    (fetch_info m1 m2 : DeviceState → DeviceState)
    (h : ((command_call kw1 dev fetch_info m1).2.1)._model ≠ none ∨
         ((command_call kw1 dev fetch_info m1).2.1)._info ≠ none) :
    (command_call kw2 (command_call kw1 dev fetch_info m1).2.1 fetch_info m2).2.2 = 0 := by
  generalize (command_call kw1 dev fetch_info m1).2.1 = d at h
  rcases h with h | h
  · rw [command_call, autodetect_guard_step]
    rw [show d._model.isNone = false from (Option.isNone_eq_false_iff _).mpr
      (Option.isSome_iff_ne_none.mpr h)]
    simp
  · rw [command_call, autodetect_guard_step]
    rw [show d._info.isNone = false from (Option.isNone_eq_false_iff _).mpr
      (Option.isSome_iff_ne_none.mpr h)]
    simp

/-- C3 witness: a first call on an empty-cache device fetches and populates
the model cache; the second call then performs no fetch. -/
theorem C3_witness :
    (command_call (CmdKwargs.mk none)
        (command_call (CmdKwargs.mk none) (DeviceState.mk none none)
          (fetch_info_spec "some.model" "info") id).2.1
        (fetch_info_spec "some.model" "info") id).2.2 = 0 :=
  C3_no_second_fetch (CmdKwargs.mk none) (CmdKwargs.mk none) (DeviceState.mk none none)
    (fetch_info_spec "some.model" "info") id id (by decide)

/-- C4: for device types `B` and `D` where `D` inherits from `B`, the registry
built for `D` maps any command name `X` declared in `D`'s namespace to `D`'s
descriptor (the whole descriptor value), never `B`'s; and every command of the
base registry (which includes `B`'s own ancestors) that is not shadowed by a
declaration on `D` is included unchanged. -/
theorem C4_derived_overrides {D : Type} (cname : D → String) (B : DevClass D)
    (nsD : List (NsItem D)) (X : String) (dX : D)
    (hX : dict_lookup (get_commands_for_namespace cname [] nsD) X = some dX) :
    dict_lookup (DevClass.commands cname (DevClass.mk [B] nsD)) X = some dX ∧
    ∀ n v, dict_lookup (DevClass.commands cname B) n = some v →
      dict_lookup (get_commands_for_namespace cname [] nsD) n = none →
      dict_lookup (DevClass.commands cname (DevClass.mk [B] nsD)) n = some v := by
  have hnodupNs : (dict_keys (get_commands_for_namespace cname [] nsD)).Nodup :=
    nodup_dict_keys_get_commands_for_namespace cname nsD [] List.nodup_nil
  constructor
  · rw [DevClass.commands]
    exact dict_lookup_dict_update_of_some _ _ _ _ hnodupNs hX
  · intro n v hB hnone
    rw [DevClass.commands, dict_lookup_dict_update_of_none _ _ _ hnone,
      commandsOfBases, commandsOfBases]
    exact dict_lookup_dict_update_of_some _ _ _ _ (nodup_dict_keys_commands cname B) hB

/-- C4 witness: a base declaring `status` and `reboot`, a derived class
re-declaring `status`; the derived registry maps `status` to the derived
descriptor and keeps the inherited `reboot` descriptor. -/
theorem C4_witness :
    dict_lookup (DevClass.commands Prod.fst (DevClass.mk
        [DevClass.mk [] [NsItem.mk true (some ("status", 0)),
          NsItem.mk true (some ("reboot", 0))]]
        [NsItem.mk true (some ("status", 1))])) "status" = some ("status", 1) ∧
    dict_lookup (DevClass.commands Prod.fst (DevClass.mk
        [DevClass.mk [] [NsItem.mk true (some ("status", 0)),
          NsItem.mk true (some ("reboot", 0))]]
        [NsItem.mk true (some ("status", 1))])) "reboot" = some ("reboot", 0) :=
  have h := C4_derived_overrides Prod.fst
    (DevClass.mk [] [NsItem.mk true (some ("status", 0)),
      NsItem.mk true (some ("reboot", 0))])
    [NsItem.mk true (some ("status", 1))] "status" ("status", 1) (by decide)
  ⟨h.1, h.2 "reboot" ("reboot", 0) (by decide) (by decide)⟩

/-- C5: the output strategy of command resolution is selected with the
precedence: GlobalContext per-invocation override when present, else the
descriptor's default output strategy when present, else the generic
text strategy announcing the command name
(`format_output(f"Running command {command_name}")`). -/
theorem C5_output_precedence {I : Type} (gco : Option (GlobalContextObject I))
    (c : Command I) (fo : String → I → I) :
    (∀ o : I → I, gco_output gco = some o → selectOutput gco c fo = o) ∧
    (gco_output gco = none → ∀ d : I → I, c.default_output = some d →
      selectOutput gco c fo = d) ∧
    (gco_output gco = none → c.default_output = none →
      selectOutput gco c fo = fo ("Running command " ++ c.command_name)) := by
  refine ⟨?_, ?_, ?_⟩
  · intro o h; simp only [selectOutput, h]
  · intro h d hd; simp only [selectOutput, h, hd]
  · intro h hd; simp only [selectOutput, h, hd]

/-- C5 witness: the three precedence cases on the string-trace model. -/
theorem C5_witness :
    selectOutput (some (GlobalContextObject.mk 0 (some (tagWrap "override"))))
        (Command.init (some "cmd") "cmd" [] (some (tagWrap "default"))) tagWrap
      = tagWrap "override" ∧
    selectOutput none
        (Command.init (some "cmd") "cmd" [] (some (tagWrap "default"))) tagWrap
      = tagWrap "default" ∧
    selectOutput none (Command.init (some "cmd") "cmd" [] none) tagWrap
      = tagWrap "Running command cmd" :=
  ⟨(C5_output_precedence (some (GlobalContextObject.mk 0 (some (tagWrap "override"))))
      (Command.init (some "cmd") "cmd" [] (some (tagWrap "default"))) tagWrap).1
      (tagWrap "override") rfl,
   (C5_output_precedence none
      (Command.init (some "cmd") "cmd" [] (some (tagWrap "default"))) tagWrap).2.1
      rfl (tagWrap "default") rfl,
   (C5_output_precedence none (Command.init (some "cmd") "cmd" [] none) tagWrap).2.2
      rfl rfl⟩

/-- C6 counterexample: the claim fails when `result_msg_fmt` is a callable.
With a callable post-message spec and a result exposing the ready-made display
string `"READY"` via `__cli_output__`, the wrapper emits the callable's
rendering `"TEMPLATED"` and never emits `"READY"`: the
`not callable(result_msg_fmt)` conjunct in `format_output` restricts the
verbatim path to non-callable specs. -/
theorem C6_counterexample :
    format_output (MsgSpec.str "" (fun _ => ""))
        (MsgSpec.callableSpec (fun _ => "TEMPLATED"))
        (fun _ : Unit => PyResult.mk (some "READY")) () = (["TEMPLATED"], none) ∧
    "READY" ∉ (format_output (MsgSpec.str "" (fun _ => ""))
        (MsgSpec.callableSpec (fun _ => "TEMPLATED"))
        (fun _ : Unit => PyResult.mk (some "READY")) ()).1 := by
  constructor
  · decide
  · decide

/-- C6 (amended): in the template-text output strategy, whenever the
post-message spec is NOT callable (a literal template string) and the call's
result exposes a ready-made display string via `__cli_output__`, that string
is emitted verbatim as the entire post-message, instead of rendering the
post-message template. -/
theorem C6_cli_output_verbatim {K : Type} (msg_fmt : MsgSpec K)
    (result_msg_fmt : MsgSpec (K × PyResult)) (func : K → PyResult) (kwargs : K)
    (s : String) (hc : result_msg_fmt.isCallable = false)
    (hs : (func kwargs).cli_output = some s) :
    (format_output msg_fmt result_msg_fmt func kwargs).1
      = pre_emission msg_fmt kwargs ++ [s] := by
  rw [format_output]
  rw [post_emission, hc, hs]
  rfl

/-- C6 witness: with a template-string post-message spec and a result carrying
`__cli_output__ = "READY"`, the emission is the pre-message followed by
exactly `"READY"`. -/
theorem C6_witness :
    (format_output (MsgSpec.str "" (fun _ => ""))
        (MsgSpec.str "\x7bresult\x7d" (fun _ => "rendered template"))
        (fun _ : Unit => PyResult.mk (some "READY")) ()).1
      = pre_emission (MsgSpec.str "" (fun _ => "")) () ++ ["READY"] :=
  C6_cli_output_verbatim (MsgSpec.str "" (fun _ => ""))
    (MsgSpec.str "\x7bresult\x7d" (fun _ => "rendered template"))
    (fun _ : Unit => PyResult.mk (some "READY")) () "READY" rfl rfl

/-- C7: under the structured-JSON output strategy, a command raising a
`DeviceError` carrying a structured payload emits exactly the serialized
payload — `json.dumps(ex.args[0], indent=indent)`, never the error's free
text — and the composed callable returns normally (`none`), so the exception
does not propagate further. -/
theorem C7_device_error_payload {K : Type} (pretty : Bool)
    (func : K → Except DeviceErrorV JsonResultV) (kwargs : K) (ex : DeviceErrorV)
    (h : func kwargs = Except.error ex) :
    json_output pretty func kwargs
      = ([Json.dumps (if pretty then some 2 else none) ex.payload], none) := by
  rw [json_output, h]

/-- C7 witness: a command raising `DeviceError` with payload `\x7b"code": 7\x7d`
emits exactly the string `\x7b"code": 7\x7d` (and not the message
`"error text"`), and returns `none`. -/
theorem C7_witness :
    json_output false
        (fun _ : Unit => Except.error
          (DeviceErrorV.mk (Json.obj [("code", JVal.jnum 7)]) "error text")) ()
      = (["\x7b\"code\": 7\x7d"], none) :=
  (C7_device_error_payload false
      (fun _ : Unit => Except.error
        (DeviceErrorV.mk (Json.obj [("code", JVal.jnum 7)]) "error text")) ()
      (DeviceErrorV.mk (Json.obj [("code", JVal.jnum 7)]) "error text") rfl).trans
    (by decide)

/-- C8: for every device type, `list_commands()` returns the command names in
strictly increasing lexicographic order (hence with no duplicates), and it
covers every command name declared on the type or any of its ancestors. -/
theorem C8_sorted_unique_coverage {D : Type} (cname : D → String) (c : DevClass D) :
    (list_commands (DevClass.commands cname c)).Sorted (· < ·) ∧
    ∀ n : String, DevClass.declares cname n c = true →
      n ∈ list_commands (DevClass.commands cname c) := by
  constructor
  · exact sorted_lt_list_commands _ (nodup_dict_keys_commands cname c)
  · intro n hn
    exact (mem_list_commands_iff _ _).mpr (declares_mem_dict_keys cname n c hn)

/-- C8 witness: on a derived class whose base declares `reboot`, the listing
is strictly sorted and contains the inherited `reboot`. -/
theorem C8_witness :
    (list_commands (DevClass.commands Prod.fst (DevClass.mk
        [DevClass.mk [] [NsItem.mk true (some ("reboot", 0))]]
        [NsItem.mk true (some ("status", 1))]))).Sorted (· < ·) ∧
    "reboot" ∈ list_commands (DevClass.commands Prod.fst (DevClass.mk
        [DevClass.mk [] [NsItem.mk true (some ("reboot", 0))]]
        [NsItem.mk true (some ("status", 1))])) :=
  ⟨(C8_sorted_unique_coverage Prod.fst (DevClass.mk
      [DevClass.mk [] [NsItem.mk true (some ("reboot", 0))]]
      [NsItem.mk true (some ("status", 1))])).1,
   (C8_sorted_unique_coverage Prod.fst (DevClass.mk
      [DevClass.mk [] [NsItem.mk true (some ("reboot", 0))]]
      [NsItem.mk true (some ("status", 1))])).2 "reboot" (by decide)⟩

/-- C9: token validation accepts every 32-character string unchanged, and for
any string of a different length fails with a usage error (`BadParameter`)
whose message states the expected length (32) and the actual length. -/
theorem C9_token_validation (s : String) :
    (s.length = 32 → validate_token (some s) = Except.ok (some s)) ∧
    (s.length ≠ 32 → validate_token (some s)
      = Except.error ("Token length != 32 chars: " ++ toString s.length)) := by
  constructor
  · intro h
    rw [validate_token]
    simp [h]
  · intro h
    rw [validate_token]
    simp [h]

/-- C9 witness: a 32-character token passes unchanged; a 31-character token
fails with the message naming 32 and 31. -/
theorem C9_witness :
    validate_token (some "aaaaaaaaaaaaaaaaaaaaaaaaaaaaaaaa")
      = Except.ok (some "aaaaaaaaaaaaaaaaaaaaaaaaaaaaaaaa") ∧
    validate_token (some "aaaaaaaaaaaaaaaaaaaaaaaaaaaaaaa")
      = Except.error "Token length != 32 chars: 31" :=
  ⟨(C9_token_validation "aaaaaaaaaaaaaaaaaaaaaaaaaaaaaaaa").1 (by decide),
   ((C9_token_validation "aaaaaaaaaaaaaaaaaaaaaaaaaaaaaaa").2 (by decide)).trans
     (congrArg Except.error (by decide))⟩

/-- C10: both built-in output strategy wrappers always return `None` from the
composed callable: the wrapped method's return value is only emitted through
the output channel, never returned to the caller. -/
theorem C10_wrappers_return_none :
    (∀ (K : Type) (m : MsgSpec K) (r : MsgSpec (K × PyResult))
        (f : K → PyResult) (k : K), (format_output m r f k).2 = none) ∧
    (∀ (K : Type) (p : Bool) (f : K → Except DeviceErrorV JsonResultV)
        (k : K), (json_output p f k).2 = none) := by
  constructor
  · intro K m r f k
    rfl
  · intro K p f k
    rw [json_output]
    cases f k with
    | error ex => rfl
    | ok result => rfl

end ClickCommon

